import Mathlib

/-!
Shallow embedding of the real-time messaging and notification relay of the
atu-central-api repository.

Documents are modelled as Lean structures, the document store as lists in
insertion order (MongoDB `findOne` without a sort returns the first match in
natural order, which we model with `List.find?`).  Object ids are `Nat`,
timestamps are `Nat` milliseconds.  Every operation is a pure function from
the store (plus request data and the current time) to the updated store, an
HTTP status / result, and an ordered trace of emitted side effects
(persistence writes and socket broadcasts), so that ordering claims can be
stated about the trace.
-/

namespace AtuRelay

/-- One entry of `chatSchema.participants` (models/Chat.js). -/
structure Participant where
  user : Nat
  role : String
  joinedAt : Nat
  lastSeenAt : Option Nat := none
  deriving Repr, DecidableEq

/-- A persisted Chat document (models/Chat.js `chatSchema`).  The JS field
`type` is rendered `ctype` here. -/
structure Chat where
  id : Nat
  ctype : String
  name : Option String := none
  description : Option String := none
  participants : List Participant
  lastMessage : Option Nat := none
  lastActivity : Nat
  isArchived : Bool := false
  isPrivate : Bool := true
  createdBy : Nat
  deriving Repr, DecidableEq

/-- One entry of `messageSchema.reactions` (models/Message.js). -/
structure Reaction where
  user : Nat
  emoji : String
  createdAt : Nat
  deriving Repr, DecidableEq

/-- One entry of `messageSchema.readBy` (models/Message.js). -/
structure ReadReceipt where
  user : Nat
  readAt : Nat
  deriving Repr, DecidableEq

/-- A persisted Message document (models/Message.js `messageSchema`).  The JS
field `type` is rendered `mtype` here. -/
structure Message where
  id : Nat
  chatId : Nat
  sender : Nat
  content : String
  mtype : String := "text"
  replyTo : Option Nat := none
  reactions : List Reaction := []
  isEdited : Bool := false
  isDeleted : Bool := false
  deletedAt : Option Nat := none
  readBy : List ReadReceipt := []
  createdAt : Nat
  deriving Repr, DecidableEq

/-- The chat/message document store.  `nextId` supplies fresh object ids. -/
structure Store where
  chats : List Chat
  messages : List Message
  nextId : Nat
  deriving Repr, DecidableEq

/-- Payload of a `new_message` broadcast (the fields shaped from the saved
message in both the HTTP route and the socket handler). -/
structure MsgPayload where
  id : Nat
  chatId : Nat
  content : String
  mtype : String
  senderId : Nat
  timestamp : Nat
  deriving Repr, DecidableEq

/-- Ordered trace entries: persistence writes and socket emissions, in the
order the source performs them. -/
inductive Event where
  | persistMessage (m : Message)
  | updateChat (chatId : Nat) (lastMessage : Option Nat) (lastActivity : Nat)
  | newMessage (chatId : Nat) (payload : MsgPayload)
  | messageDeleted (chatId : Nat) (messageId : Nat)
  | messageError (toUser : Nat)
  | reactionAdded (chatId : Nat) (messageId : Nat) (userId : Nat) (emoji : String)
  deriving Repr, DecidableEq

/-- JS whitespace trimming restricted to the ASCII whitespace characters the
embedding works with, written over the character list so that it evaluates
inside the kernel. -/
def isJsWhitespace (c : Char) : Bool :=
  c == ' ' || c == '\t' || c == '\n' || c == '\r'

/-- Leading and trailing whitespace removal (the JS trim call on `content`
and the Mongoose `trim: true` cast of the `content` field). -/
def trimString (s : String) : String :=
  ⟨((s.data.dropWhile isJsWhitespace).reverse.dropWhile isJsWhitespace).reverse⟩

/-- Mongoose validation of a Message on save: `content` is trimmed, required,
and at most 2000 characters (models/Message.js). -/
def messageContentValid (content : String) : Bool :=
  trimString content ≠ "" && (trimString content).length ≤ 2000

/-- The `findOne` query of `chatSchema.statics.createDirectChat`
(models/Chat.js lines 111-118): type `direct`, both users among the
participants, and exactly two participant entries. -/
def isDirectChatBetween (a b : Nat) (c : Chat) : Bool :=
  c.ctype == "direct" &&
    (c.participants.any (fun p => p.user == a) &&
      (c.participants.any (fun p => p.user == b) &&
        c.participants.length == 2))

/-- `chatSchema.statics.createDirectChat` (models/Chat.js lines 109-136):
find-or-create the unique direct chat between `a` and `b`; an existing chat is
returned as found, otherwise a new one is created with both users as
`member` and `a` as creator. -/
def createDirectChat (st : Store) (a b : Nat) (now : Nat) : Store × Chat :=
  match st.chats.find? (isDirectChatBetween a b) with
  | some existing => (st, existing)
  | none =>
    let c : Chat :=
      { id := st.nextId
        ctype := "direct"
        participants :=
          [ { user := a, role := "member", joinedAt := now }
          , { user := b, role := "member", joinedAt := now } ]
        lastActivity := now
        createdBy := a }
    ({ st with chats := st.chats ++ [c], nextId := st.nextId + 1 }, c)

/-- `chatSchema.statics.createGroupChat` (models/Chat.js lines 139-163):
creator is `admin`, the listed participants are `member`; no validation is
performed here. -/
def createGroupChat (st : Store) (creatorId : Nat) (name : String)
    (participantIds : List Nat) (description : Option String)
    (isPrivate : Bool) (ctype : String) (now : Nat) : Store × Chat :=
  let c : Chat :=
    { id := st.nextId
      ctype := ctype
      name := some name
      description := description
      participants :=
        { user := creatorId, role := "admin", joinedAt := now } ::
          participantIds.map (fun i => { user := i, role := "member", joinedAt := now })
      lastActivity := now
      isPrivate := isPrivate
      createdBy := creatorId }
  ({ st with chats := st.chats ++ [c], nextId := st.nextId + 1 }, c)

/-- `messageSchema.methods.addReaction` (models/Message.js lines 401-410):
remove any existing reaction by this user with this emoji, then push a fresh
entry. -/
def Message.addReaction (m : Message) (userId : Nat) (emoji : String) (now : Nat) : Message :=
  let kept := m.reactions.filter
    (fun r => !(r.user == userId && r.emoji == emoji))
  { m with reactions := kept ++ [{ user := userId, emoji := emoji, createdAt := now }] }

/-- `messageSchema.methods.softDelete` (models/Message.js lines 436-440):
sets the deleted flag and timestamp; the content field is not touched. -/
def Message.softDelete (m : Message) (now : Nat) : Message :=
  { m with isDeleted := true, deletedAt := some now }

/-- Saving a modified Chat document rewrites the document with that id. -/
def replaceChat (st : Store) (c : Chat) : Store :=
  { st with chats := st.chats.map (fun x => if x.id == c.id then c else x) }

/-- Saving a modified Message document rewrites the document with that id. -/
def replaceMessage (st : Store) (m : Message) : Store :=
  { st with messages := st.messages.map (fun x => if x.id == m.id then m else x) }

/-- Result of an HTTP route handler: the store afterwards, the HTTP status
code, and the ordered trace of writes/broadcasts it performed. -/
structure RouteOutcome where
  store : Store
  status : Nat
  events : List Event
  deriving Repr, DecidableEq

/-- `POST /chats/:chatId/messages` (routes/messaging.routes.js lines
261-384).  In source order: reject empty/whitespace content (400), look up
the chat (404), check the sender is a participant (403), save the Message
(Mongoose validation failure is caught as 500), update the chat's
`lastMessage`/`lastActivity` and save it, then broadcast the shaped payload
to the chat channel, answering 201.  The best-effort Activity side write is
an external collaborator and is not part of the relay state.  The stored
content is the trimmed input, and the broadcast payload is shaped from the
saved message (`message.content`, `message.createdAt`, `message._id`). -/
def postSendMessage (st : Store) (userId : Nat) (chatId : Nat)
    (content : String) (mtype : String) (replyTo : Option Nat)
    (now : Nat) : RouteOutcome :=
  if trimString content == "" then
    { store := st, status := 400, events := [] }
  else
    match st.chats.find? (fun c => c.id == chatId) with
    | none => { store := st, status := 404, events := [] }
    | some chat =>
      if !(chat.participants.any (fun p => p.user == userId)) then
        { store := st, status := 403, events := [] }
      else if !(messageContentValid content) then
        { store := st, status := 500, events := [] }
      else
        let m : Message :=
          { id := st.nextId
            chatId := chatId
            sender := userId
            content := trimString content
            mtype := mtype
            replyTo := replyTo
            createdAt := now }
        let st1 : Store :=
          { st with messages := st.messages ++ [m], nextId := st.nextId + 1 }
        let chat' := { chat with lastMessage := some m.id, lastActivity := now }
        let st2 := replaceChat st1 chat'
        let payload : MsgPayload :=
          { id := m.id
            chatId := chatId
            content := m.content
            mtype := mtype
            senderId := userId
            timestamp := m.createdAt }
        { store := st2
          status := 201
          events :=
            [ Event.persistMessage m
            , Event.updateChat chatId (some m.id) now
            , Event.newMessage chatId payload ] }

/-- The `send_message` socket handler (config/socket.js lines 723-766).  It
saves the Message directly — there is no chat lookup and no participant
check — then issues `Chat.findByIdAndUpdate` (a silent no-op when the chat
id does not resolve) and broadcasts `new_message` to the chat channel.  A
save failure (Mongoose validation) is caught and answered with a
`message_error` event to the sending socket only.  The broadcast payload
carries the raw event `content` but the saved message's id and
`createdAt`. -/
def socketSendMessage (st : Store) (senderId : Nat) (chatId : Nat)
    (content : String) (mtype : String) (now : Nat) : Store × List Event :=
  if !(messageContentValid content) then
    (st, [Event.messageError senderId])
  else
    let m : Message :=
      { id := st.nextId
        chatId := chatId
        sender := senderId
        content := trimString content
        mtype := mtype
        createdAt := now }
    let st1 : Store :=
      { st with messages := st.messages ++ [m], nextId := st.nextId + 1 }
    let st2 : Store :=
      { st1 with chats := st1.chats.map (fun c =>
          if c.id == chatId then
            { c with lastMessage := some m.id, lastActivity := now }
          else c) }
    let payload : MsgPayload :=
      { id := m.id
        chatId := chatId
        content := content
        mtype := mtype
        senderId := senderId
        timestamp := m.createdAt }
    (st2,
      [ Event.persistMessage m
      , Event.updateChat chatId (some m.id) now
      , Event.newMessage chatId payload ])

/-- `DELETE /messages/:messageId` (routes/messaging.routes.js lines
631-682): look up the message (404), require the requester to be the sender
(403), soft delete it, and broadcast a `message_deleted` event carrying only
the message id and chat id. -/
def deleteMessageRoute (st : Store) (userId : Nat) (messageId : Nat)
    (now : Nat) : RouteOutcome :=
  match st.messages.find? (fun m => m.id == messageId) with
  | none => { store := st, status := 404, events := [] }
  | some m =>
    if m.sender ≠ userId then
      { store := st, status := 403, events := [] }
    else
      let m' := m.softDelete now
      { store := replaceMessage st m'
        status := 200
        events := [Event.messageDeleted m.chatId messageId] }

/-- The group branch of `POST /chats` (routes/messaging.routes.js lines
101-114): reject a missing/empty name or a missing/empty participant list
with 400 before delegating to `Chat.createGroupChat`; a missing name is the
empty string here. -/
def postCreateGroupChat (st : Store) (creatorId : Nat) (name : String)
    (participantIds : List Nat) (description : Option String)
    (isPrivate : Bool) (ctype : String) (now : Nat) :
    Store × Nat × Option Chat :=
  if name == "" || participantIds.isEmpty then
    (st, 400, none)
  else
    let (st', c) :=
      createGroupChat st creatorId name participantIds description isPrivate ctype now
    (st', 201, some c)

/-- One live socket connection: a socket id and its authenticated user. -/
structure SocketConn where
  sid : Nat
  userId : Nat
  deriving Repr, DecidableEq

/-- Payload of a `user_typing` emission (config/socket.js lines 810-821). -/
structure TypingPayload where
  userId : Nat
  chatId : Nat
  isTyping : Bool
  deriving Repr, DecidableEq

/-- The `typing` socket handler (config/socket.js lines 810-821): a single
`socket.to('chat:<id>').emit('user_typing', ...)`, i.e. one broadcast whose
delivery set is every connection currently in the chat room except the
emitting socket itself; nothing is persisted (the store is returned
untouched). -/
def typingHandler (st : Store) (room : List SocketConn) (sender : SocketConn)
    (chatId : Nat) (isTyping : Bool) :
    Store × List (SocketConn × TypingPayload) :=
  (st,
    (room.filter (fun c => c.sid != sender.sid)).map
      (fun c => (c, { userId := sender.userId, chatId := chatId, isTyping := isTyping })))

/-- The type-specific `data` payload of a Notification, restricted to the
fields the action-URL derivation reads (models/Notification.js lines
156-183); ids are object ids. -/
structure NotifData where
  eventId : Option Nat := none
  jobId : Option Nat := none
  surveyId : Option Nat := none
  deriving Repr, DecidableEq

/-- A persisted Notification document (models/Notification.js
`notificationSchema`), with schema defaults already applied.  The JS field
`type` is rendered `ntype`. -/
structure NotificationDoc where
  id : Nat
  recipient : Nat
  sender : Option Nat := none
  ntype : String
  title : String
  message : String
  data : NotifData := {}
  actionUrl : Option String := none
  isRead : Bool := false
  readAt : Option Nat := none
  priority : String := "medium"
  expiresAt : Nat
  createdAt : Nat
  deriving Repr, DecidableEq

/-- Creation-time input to a Notification (the plain object handed to
`createNotification`, or the shared template of `createBulkNotifications`
before the per-recipient spread). -/
structure NotificationInput where
  recipient : Option Nat := none
  sender : Option Nat := none
  ntype : String
  title : String
  message : String
  data : NotifData := {}
  actionUrl : Option String := none
  priority : String := "medium"
  deriving Repr, DecidableEq

/-- The closed `type` enum of `notificationSchema`. -/
def notificationTypes : List String :=
  [ "connection_request", "connection_accepted", "event_reminder"
  , "event_rsvp", "job_application", "job_status_update"
  , "survey_invitation", "system", "admin_message", "profile_view"
  , "new_job_posting", "event_invitation" ]

/-- JS template interpolation of a possibly-absent id renders `undefined`. -/
def showOptId : Option Nat → String
  | some n => toString n
  | none => "undefined"

/-- The pure action-URL derivation: the `switch` on `this.type` inside
`notificationSchema.pre('save')` (models/Notification.js lines 158-180). -/
def deriveActionUrl (ntype : String) (sender : Option Nat) (data : NotifData) : String :=
  if ntype == "connection_request" then "/alumni/" ++ showOptId sender
  else if ntype == "event_reminder" || ntype == "event_rsvp" || ntype == "event_invitation" then
    "/events/" ++ showOptId data.eventId
  else if ntype == "job_application" || ntype == "job_status_update" || ntype == "new_job_posting" then
    "/jobs/" ++ showOptId data.jobId
  else if ntype == "survey_invitation" then "/surveys/" ++ showOptId data.surveyId
  else if ntype == "profile_view" then "/alumni/me/profile"
  else "/dashboard"

/-- `notificationSchema.pre('save')` (models/Notification.js lines 156-183):
only when no actionUrl was supplied (and type is set; `data` always defaults
to a truthy object), store the derived URL.  This hook runs on `save` only;
`insertMany` does not trigger it. -/
def preSaveActionUrl (n : NotificationDoc) : NotificationDoc :=
  if n.actionUrl.isNone && n.ntype != "" then
    { n with actionUrl := some (deriveActionUrl n.ntype n.sender n.data) }
  else n

/-- Casting an input to a document with schema defaults (applied both by
`save` and by `insertMany`): `isRead` false, default priority handled on the
input, TTL expiry 30 days from now. -/
def buildNotification (id : Nat) (recipient : Nat) (i : NotificationInput)
    (now : Nat) : NotificationDoc :=
  { id := id
    recipient := recipient
    sender := i.sender
    ntype := i.ntype
    title := i.title
    message := i.message
    data := i.data
    actionUrl := i.actionUrl
    priority := i.priority
    expiresAt := now + 30 * 24 * 60 * 60 * 1000
    createdAt := now }

/-- Schema validation of a Notification document (run by `save` and by
`insertMany` alike): type in the enum, title/message required and bounded,
sender required unless the type is `system`. -/
def notificationDocValid (n : NotificationDoc) : Bool :=
  notificationTypes.contains n.ntype &&
    (n.title ≠ "" && n.title.length ≤ 100) &&
    (n.message ≠ "" && n.message.length ≤ 500) &&
    (n.sender.isSome || n.ntype == "system")

/-- The notification document store. -/
structure NotifStore where
  notifications : List NotificationDoc
  nextId : Nat
  deriving Repr, DecidableEq

/-- `notificationSchema.statics.createNotification` (models/Notification.js
lines 109-117): construct the document and `save` it, which validates and
then runs the `pre('save')` action-URL hook before the write.  `none` models
a thrown validation error (recipient/type/title/message missing or
invalid). -/
def createNotification (st : NotifStore) (i : NotificationInput) (now : Nat) :
    NotifStore × Option NotificationDoc :=
  match i.recipient with
  | none => (st, none)
  | some r =>
    let doc := buildNotification st.nextId r i now
    if notificationDocValid doc then
      let doc := preSaveActionUrl doc
      ({ st with notifications := st.notifications ++ [doc], nextId := st.nextId + 1 },
        some doc)
    else (st, none)

/-- `notificationSchema.statics.createBulkNotifications`
(models/Notification.js lines 120-134): spread the shared template once per
recipient and `insertMany` the documents.  `insertMany` casts, applies
defaults, and validates every document (rejecting all on any failure), but
does not run the `pre('save')` hook, so no action URL is derived on this
path. -/
def createBulkNotifications (st : NotifStore) (recipients : List Nat)
    (tmpl : NotificationInput) (now : Nat) :
    NotifStore × Option (List NotificationDoc) :=
  let docs := (List.range recipients.length).zip recipients |>.map
    (fun p => buildNotification (st.nextId + p.1) p.2 tmpl now)
  if docs.all notificationDocValid then
    ({ st with notifications := st.notifications ++ docs
             , nextId := st.nextId + recipients.length },
      some docs)
  else (st, none)

/-- Outcome of a per-recipient live push. -/
inductive PushEvent where
  | delivered (userId : Nat)
  | dropped (userId : Nat)
  deriving Repr, DecidableEq

/-- Modelled from the spec: the real-time push loop of
`createBulkNotifications` is commented out in the source
(models/Notification.js lines 128-131), so the per-recipient push that §4.4
prescribes for `notifyBulk` is missing from src; per the spec it pushes to
each recipient's personal channel individually and best-effort, a failed
push being absorbed.  `pushOk` says which recipients' live channels accept
the push; persistence is the `createBulkNotifications` write and is not
conditioned on any push outcome. -/
def notifyBulk (st : NotifStore) (recipients : List Nat)
    (tmpl : NotificationInput) (now : Nat) (pushOk : Nat → Bool) :
    (NotifStore × Option (List NotificationDoc)) × List PushEvent :=
  (createBulkNotifications st recipients tmpl now,
    recipients.map (fun r => if pushOk r then PushEvent.delivered r else PushEvent.dropped r))

/-- Updates the first element satisfying `p` (the semantics of a Mongo
`findOneAndUpdate` on the natural order). -/
def updateFirst (p : α → Bool) (f : α → α) : List α → List α
  | [] => []
  | x :: xs => if p x then f x :: xs else x :: updateFirst p f xs

/-- `PUT /:id/read` (routes/notifications.routes.js lines 90-119): find the
notification by id AND recipient = caller; 404 when absent, otherwise
`markAsRead` sets the read flag/timestamp and saves. -/
def putNotificationRead (st : NotifStore) (callerId : Nat) (nid : Nat)
    (now : Nat) : NotifStore × Nat :=
  match st.notifications.find? (fun n => n.id == nid && n.recipient == callerId) with
  | none => (st, 404)
  | some n =>
    ({ st with notifications := st.notifications.map (fun x =>
        if x.id == n.id then { n with isRead := true, readAt := some now } else x) },
      200)

/-- `DELETE /:id` (routes/notifications.routes.js lines 144-172):
`findOneAndDelete` by id AND recipient = caller; 404 when nothing
matched. -/
def deleteNotificationRoute (st : NotifStore) (callerId : Nat) (nid : Nat) :
    NotifStore × Nat :=
  match st.notifications.find? (fun n => n.id == nid && n.recipient == callerId) with
  | none => (st, 404)
  | some _ =>
    ({ st with notifications :=
        st.notifications.eraseP (fun n => n.id == nid && n.recipient == callerId) },
      200)

/-- The `markNotificationAsRead` helper behind the `mark_notification_read`
socket event (config/socket.js lines 890-900): `findOneAndUpdate` filtered
by id AND recipient = the socket's user; a non-match is a silent no-op. -/
def markNotificationAsRead (st : NotifStore) (nid : Nat) (userId : Nat)
    (now : Nat) : NotifStore :=
  let ns := updateFirst (fun n => n.id == nid && n.recipient == userId)
    (fun n => { n with isRead := true, readAt := some now }) st.notifications
  { st with notifications := ns }

/-! General list lemmas shared by the claim proofs. -/

theorem countP_filter_not {α} (p : α → Bool) (l : List α) :
    (l.filter (fun a => !(p a))).countP p = 0 := by
  simp [List.countP_eq_zero]

theorem filter_not_idem {α} (p : α → Bool) (l : List α) :
    (l.filter (fun a => !(p a))).filter (fun a => !(p a))
      = l.filter (fun a => !(p a)) := by
  rw [List.filter_filter]; simp

theorem countP_replace {α} (p : α → Bool) (l : List α) (x : α) (hx : p x = true) :
    ((l.filter (fun a => !(p a))) ++ [x]).countP p = 1 := by
  rw [List.countP_append, countP_filter_not]
  simp [hx]

theorem find?_append_none {α} (p : α → Bool) {l1 : List α} (l2 : List α)
    (h : l1.find? p = none) : (l1 ++ l2).find? p = l2.find? p := by
  rw [List.find?_append, h, Option.none_or]

theorem updateFirst_eq_of_forall_not {α} (p : α → Bool) (f : α → α)
    (l : List α) (h : ∀ x ∈ l, p x = false) : updateFirst p f l = l := by
  induction l with
  | nil => rfl
  | cons a l ih =>
    have ha := h a (List.mem_cons_self a l)
    simp only [updateFirst, ha, Bool.false_eq_true, if_false, List.cons.injEq, true_and]
    exact ih (fun x hx => h x (List.mem_cons_of_mem a hx))

/-! Claim theorems. -/

/-- C5: for every message M, user U and emoji E, calling `addReaction(M,U,E)`
twice in succession leaves exactly one reaction entry for the pair (U,E) in
M's reaction list, and the second call replaces rather than duplicates (the
reaction list length is unchanged by the repeated identical call). -/
theorem c5_addReaction_repeat_single_entry (m : Message) (u : Nat) (e : String)
    (t1 t2 : Nat) :
    (((m.addReaction u e t1).addReaction u e t2).reactions.countP
        (fun r => r.user == u && r.emoji == e) = 1) ∧
    ((m.addReaction u e t1).addReaction u e t2).reactions.length
      = (m.addReaction u e t1).reactions.length := by
  constructor
  · simp only [Message.addReaction]
    exact countP_replace _ _ _ (by simp)
  · simp only [Message.addReaction]
    rw [List.filter_append, filter_not_idem]
    simp

/-- C9 (amended): the `typing` handler is stateless — the store is returned
untouched — and performs a single broadcast per call whose delivery set is
exactly the chat room membership minus the one emitting connection (the
sender's other connections, if joined, do receive the signal), each delivery
carrying the sender's user id, the chat id and the boolean flag. -/
theorem c9_typing_stateless_excludes_emitting_socket (st : Store)
    (room : List SocketConn) (sender : SocketConn) (chatId : Nat) (b : Bool) :
    (typingHandler st room sender chatId b).1 = st ∧
    ((typingHandler st room sender chatId b).2.map Prod.fst
      = room.filter (fun c => c.sid != sender.sid)) ∧
    (∀ d ∈ (typingHandler st room sender chatId b).2,
      d.2 = { userId := sender.userId, chatId := chatId, isTyping := b }) := by
  refine ⟨rfl, ?_, ?_⟩
  · simp only [typingHandler, List.map_map]
    exact List.map_id _
  · intro d hd
    simp [typingHandler] at hd
    obtain ⟨c, -, rfl⟩ := hd
    rfl

/-- C9 counterexample: the claim says none of the sender's connected clients
receive the typing signal, but only the emitting socket is excluded.  With
user 10 connected through sockets 1 and 2, both joined to the chat room, a
`typing` event from socket 1 is delivered to socket 2, which belongs to the
same user. -/
theorem c9_counterexample_own_second_connection_receives :
    ((typingHandler ⟨[], [], 0⟩ [⟨1, 10⟩, ⟨2, 10⟩, ⟨3, 20⟩] ⟨1, 10⟩ 5 true).2.map
        Prod.fst = [⟨2, 10⟩, ⟨3, 20⟩]) ∧
    (⟨2, 10⟩ : SocketConn).userId = (⟨1, 10⟩ : SocketConn).userId := by
  constructor <;> rfl

/-- C4 (amended): for a message M found by id, a requester who is not M's
sender gets 403 (`ForbiddenError`) and the store is unchanged; the sender's
delete sets the deleted flag and deletion timestamp and broadcasts a
`message_deleted` event carrying only the message id and chat id — but the
stored content is left as it was, not replaced by a placeholder. -/
theorem c4_softDelete_sender_only_flags_content_kept (st : Store)
    (uid mid now : Nat) (m : Message)
    (hfind : st.messages.find? (fun x => x.id == mid) = some m) :
    (m.sender ≠ uid → deleteMessageRoute st uid mid now = ⟨st, 403, []⟩) ∧
    (m.sender = uid →
      (deleteMessageRoute st uid mid now).status = 200 ∧
      (deleteMessageRoute st uid mid now).events
        = [Event.messageDeleted m.chatId mid] ∧
      (∀ x ∈ (deleteMessageRoute st uid mid now).store.messages, x.id = m.id →
        x.content = m.content ∧ x.isDeleted = true ∧ x.deletedAt = some now) ∧
      (∃ x ∈ (deleteMessageRoute st uid mid now).store.messages, x.id = m.id)) := by
  constructor
  · intro hne
    simp only [deleteMessageRoute, hfind]
    rw [if_pos hne]
  · intro heq
    have hmem : m ∈ st.messages := List.mem_of_find?_eq_some hfind
    simp only [deleteMessageRoute, hfind]
    rw [if_neg (by simp [heq])]
    refine ⟨rfl, rfl, ?_, ?_⟩
    · intro x hx hxid
      simp only [replaceMessage, Message.softDelete, List.mem_map] at hx
      obtain ⟨x0, hx0, rfl⟩ := hx
      by_cases h0 : x0.id = m.id
      · simp [h0]
      · simp [h0] at hxid
    · refine ⟨{ m with isDeleted := true, deletedAt := some now }, ?_, rfl⟩
      simp only [replaceMessage, Message.softDelete, List.mem_map]
      exact ⟨m, hmem, by simp⟩

/-- C4 witness: in a store holding one message from sender 7, requester 9
(not the sender) gets 403 and the store is untouched. -/
theorem c4_witness_non_sender_forbidden :
    deleteMessageRoute
        ⟨[], [⟨5, 1, 7, "hello", "text", none, [], false, false, none, [], 0⟩], 6⟩
        9 5 50
      = ⟨⟨[], [⟨5, 1, 7, "hello", "text", none, [], false, false, none, [], 0⟩], 6⟩, 403, []⟩ :=
  (c4_softDelete_sender_only_flags_content_kept
      ⟨[], [⟨5, 1, 7, "hello", "text", none, [], false, false, none, [], 0⟩], 6⟩
      9 5 50 ⟨5, 1, 7, "hello", "text", none, [], false, false, none, [], 0⟩ rfl).1
    (by decide)

/-- C4 counterexample: the claim says a sender delete replaces the content
with a deletion placeholder; in the code the stored content after the
sender's soft delete is still the original "hello" (only the flag and
timestamp change). -/
theorem c4_counterexample_content_not_replaced :
    ((deleteMessageRoute
          ⟨[], [⟨5, 1, 7, "hello", "text", none, [], false, false, none, [], 0⟩], 6⟩
          7 5 50).store.messages.map (fun x => (x.content, x.isDeleted)))
      = [("hello", true)] := by rfl

/-- C6: the group branch of chat creation answers 400 (`ValidationError`)
whenever the name is empty/missing or the participant list is empty, leaving
the store unchanged; otherwise it creates a chat whose creator has role
`admin` and whose other listed participants are all `member`. -/
theorem c6_createGroupChat_validation_and_roles (st : Store) (creator : Nat)
    (name : String) (pids : List Nat) (descr : Option String) (priv : Bool)
    (ctype : String) (now : Nat) :
    ((name = "" ∨ pids = []) →
      postCreateGroupChat st creator name pids descr priv ctype now
        = (st, 400, none)) ∧
    (name ≠ "" → pids ≠ [] →
      ∃ c, postCreateGroupChat st creator name pids descr priv ctype now
          = ({ st with chats := st.chats ++ [c], nextId := st.nextId + 1 }, 201, some c) ∧
        c.participants.map (fun p => (p.user, p.role))
          = (creator, "admin") :: pids.map (fun i => (i, "member"))) := by
  constructor
  · intro h
    rcases h with h | h <;> simp [postCreateGroupChat, h]
  · intro h1 h2
    refine ⟨⟨st.nextId, ctype, some name, descr,
      ⟨creator, "admin", now, none⟩ :: pids.map (fun i => ⟨i, "member", now, none⟩),
      none, now, false, priv, creator⟩, ?_, ?_⟩
    · simp [postCreateGroupChat, createGroupChat, h1, h2]
    · simp [List.map_map]

/-- C6 witness: an empty name is rejected with 400 without touching the
store, and a well-formed creation gives the creator role `admin` and the two
listed participants role `member`. -/
theorem c6_witness_validation_and_roles :
    (postCreateGroupChat ⟨[], [], 0⟩ 1 "" [2] none true "group" 7
      = (⟨[], [], 0⟩, 400, none)) ∧
    (∃ c, postCreateGroupChat ⟨[], [], 0⟩ 1 "g" [2, 3] none true "group" 7
        = (⟨[(c : Chat)], [], 1⟩, 201, some c) ∧
      c.participants.map (fun p => (p.user, p.role))
        = [(1, "admin"), (2, "member"), (3, "member")]) := by
  constructor
  · exact (c6_createGroupChat_validation_and_roles ⟨[], [], 0⟩ 1 "" [2] none true
      "group" 7).1 (Or.inl rfl)
  · obtain ⟨c, hc, hroles⟩ := (c6_createGroupChat_validation_and_roles ⟨[], [], 0⟩ 1
      "g" [2, 3] none true "group" 7).2 (by decide) (by decide)
    exact ⟨c, hc, by rw [hroles]; rfl⟩

/-- C2: starting from a store with no direct chat between A and B, calling
`createDirectChat` a second time — with (A,B) or with (B,A) — finds the chat
the first call created and returns it with the store unmutated, and the
created chat's participant list is exactly A and B, each with role
`member`. -/
theorem c2_createDirectChat_find_or_create (st : Store) (a b t1 t2 t3 : Nat)
    (h1 : st.chats.find? (isDirectChatBetween a b) = none)
    (h2 : st.chats.find? (isDirectChatBetween b a) = none) :
    createDirectChat (createDirectChat st a b t1).1 a b t2
      = createDirectChat st a b t1 ∧
    createDirectChat (createDirectChat st a b t1).1 b a t3
      = createDirectChat st a b t1 ∧
    (createDirectChat st a b t1).2.participants.map (fun p => (p.user, p.role))
      = [(a, "member"), (b, "member")] := by
  have hab : isDirectChatBetween a b
      ⟨st.nextId, "direct", none, none,
        [⟨a, "member", t1, none⟩, ⟨b, "member", t1, none⟩], none, t1, false, true, a⟩
      = true := by
    simp [isDirectChatBetween]
  have hba : isDirectChatBetween b a
      ⟨st.nextId, "direct", none, none,
        [⟨a, "member", t1, none⟩, ⟨b, "member", t1, none⟩], none, t1, false, true, a⟩
      = true := by
    simp [isDirectChatBetween]
  refine ⟨?_, ?_, ?_⟩
  · simp only [createDirectChat, h1]
    rw [find?_append_none _ _ h1]
    simp [List.find?_cons, hab]
  · simp only [createDirectChat, h1]
    rw [find?_append_none _ _ h2]
    simp [List.find?_cons, hba]
  · simp only [createDirectChat, h1]
    simp

/-- C2 witness: from the empty store, the repeat calls with (1,2) and (2,1)
both return the chat created by the first call, whose participants are 1 and
2 as members. -/
theorem c2_witness_direct_chat_idempotent :
    createDirectChat (createDirectChat ⟨[], [], 0⟩ 1 2 5).1 1 2 6
      = createDirectChat ⟨[], [], 0⟩ 1 2 5 ∧
    createDirectChat (createDirectChat ⟨[], [], 0⟩ 1 2 5).1 2 1 7
      = createDirectChat ⟨[], [], 0⟩ 1 2 5 ∧
    (createDirectChat ⟨[], [], 0⟩ 1 2 5).2.participants.map
        (fun p => (p.user, p.role))
      = [(1, "member"), (2, "member")] :=
  c2_createDirectChat_find_or_create ⟨[], [], 0⟩ 1 2 5 6 7 rfl rfl

/-- C10: for a notification N and a caller who is not N's recipient, all
three mutation entry points leave the store (and so N) unchanged: the HTTP
mark-read and delete routes answer 404, and the socket
`mark_notification_read` helper is a silent no-op.  The id-uniqueness
hypothesis states that N is the only document carrying its id. -/
theorem c10_notification_mutation_recipient_scoped (st : NotifStore)
    (caller : Nat) (n : NotificationDoc) (now : Nat)
    (hmem : n ∈ st.notifications)
    (huniq : ∀ x ∈ st.notifications, x.id = n.id → x = n)
    (hne : n.recipient ≠ caller) :
    putNotificationRead st caller n.id now = (st, 404) ∧
    deleteNotificationRoute st caller n.id = (st, 404) ∧
    markNotificationAsRead st n.id caller now = st := by
  have hfalse : ∀ x ∈ st.notifications,
      (x.id == n.id && x.recipient == caller) = false := by
    intro x hx
    by_cases hid : x.id = n.id
    · have hxn := huniq x hx hid
      subst hxn
      simp [hne]
    · simp [hid]
  have hfind : st.notifications.find?
      (fun x => x.id == n.id && x.recipient == caller) = none :=
    List.find?_eq_none.mpr (by intro x hx; simp [hfalse x hx])
  refine ⟨?_, ?_, ?_⟩
  · simp [putNotificationRead, hfind]
  · simp [deleteNotificationRoute, hfind]
  · have hupd := updateFirst_eq_of_forall_not
      (fun x => x.id == n.id && x.recipient == caller)
      (fun x => { x with isRead := true, readAt := some now })
      st.notifications hfalse
    simp [markNotificationAsRead, hupd]

/-- C10 witness: notification 1 belongs to recipient 3; caller 4 gets 404
from both HTTP routes and a socket no-op, the store being returned
unchanged in all three cases. -/
theorem c10_witness_foreign_caller_cannot_mutate :
    putNotificationRead
        ⟨[⟨1, 3, some 2, "system", "t", "m", ⟨none, none, none⟩, none, false,
            none, "medium", 99, 0⟩], 10⟩ 4 1 50
      = (⟨[⟨1, 3, some 2, "system", "t", "m", ⟨none, none, none⟩, none, false,
            none, "medium", 99, 0⟩], 10⟩, 404) ∧
    deleteNotificationRoute
        ⟨[⟨1, 3, some 2, "system", "t", "m", ⟨none, none, none⟩, none, false,
            none, "medium", 99, 0⟩], 10⟩ 4 1
      = (⟨[⟨1, 3, some 2, "system", "t", "m", ⟨none, none, none⟩, none, false,
            none, "medium", 99, 0⟩], 10⟩, 404) ∧
    markNotificationAsRead
        ⟨[⟨1, 3, some 2, "system", "t", "m", ⟨none, none, none⟩, none, false,
            none, "medium", 99, 0⟩], 10⟩ 1 4 50
      = ⟨[⟨1, 3, some 2, "system", "t", "m", ⟨none, none, none⟩, none, false,
            none, "medium", 99, 0⟩], 10⟩ :=
  c10_notification_mutation_recipient_scoped
    ⟨[⟨1, 3, some 2, "system", "t", "m", ⟨none, none, none⟩, none, false,
        none, "medium", 99, 0⟩], 10⟩ 4
    ⟨1, 3, some 2, "system", "t", "m", ⟨none, none, none⟩, none, false,
      none, "medium", 99, 0⟩ 50
    (by simp) (by decide) (by decide)

/-- C8: for a schema-valid template, `notifyBulk` persists exactly one
Notification document per recipient — in order, each carrying its own
recipient — and the persisted store is the same whatever subset of
per-recipient live pushes succeeds: a failed push to one recipient's channel
cannot prevent persistence (or the pushes) for the others. -/
theorem c8_notifyBulk_one_document_per_recipient (st : NotifStore)
    (recipients : List Nat) (tmpl : NotificationInput) (now : Nat)
    (pushOk : Nat → Bool)
    (hv : notificationDocValid (buildNotification 0 0 tmpl now) = true) :
    ∃ docs,
      (notifyBulk st recipients tmpl now pushOk).1
        = ({ st with notifications := st.notifications ++ docs, nextId := st.nextId + recipients.length }, some docs) ∧
      docs.length = recipients.length ∧
      docs.map (fun d => d.recipient) = recipients ∧
      (∀ pushOk', (notifyBulk st recipients tmpl now pushOk').1
          = (notifyBulk st recipients tmpl now pushOk).1) := by
  have hval : ∀ i r, notificationDocValid (buildNotification i r tmpl now) = true :=
    fun _ _ => hv
  refine ⟨((List.range recipients.length).zip recipients).map
    (fun p => buildNotification (st.nextId + p.1) p.2 tmpl now), ?_, ?_, ?_, fun _ => rfl⟩
  · have hall : (((List.range recipients.length).zip recipients).map
        (fun p => buildNotification (st.nextId + p.1) p.2 tmpl now)).all
          notificationDocValid = true := by
      rw [List.all_eq_true]
      intro x hx
      obtain ⟨p, -, rfl⟩ := List.mem_map.mp hx
      exact hval _ _
    simp only [notifyBulk, createBulkNotifications, hall, if_true]
  · simp [List.length_zip]
  · have hsnd : ((List.range recipients.length).zip recipients).map Prod.snd
        = recipients :=
      List.map_snd_zip _ _ (by simp)
    rw [List.map_map]
    simpa [buildNotification, Function.comp] using hsnd

/-- C8 witness: three recipients, a valid `system` template, and a push that
fails for recipient 2: three documents are persisted, one per recipient, in
order. -/
theorem c8_witness_three_recipients_three_documents :
    ((notifyBulk ⟨[], 0⟩ [1, 2, 3]
        ⟨none, none, "system", "t", "m", ⟨none, none, none⟩, none, "medium"⟩ 5
        (fun r => r != 2)).1.1.notifications.map (fun d => d.recipient))
      = [1, 2, 3] := by
  obtain ⟨docs, heq, hlen, hrec, hind⟩ :=
    c8_notifyBulk_one_document_per_recipient ⟨[], 0⟩ [1, 2, 3]
      ⟨none, none, "system", "t", "m", ⟨none, none, none⟩, none, "medium"⟩ 5
      (fun r => r != 2) (by decide)
  rw [heq]
  simpa using hrec

/-- C7 (amended): the action URL is a deterministic pure function
(`deriveActionUrl`) of the notification's type, sender and data, and on the
single-notification save path it is applied before persistence: the stored
document of `createNotification` already carries the derived URL whenever
none was supplied.  The bulk path however (`insertMany`) does not run the
`pre('save')` hook, so bulk-created documents are persisted with the action
URL exactly as supplied by the template (absent when not supplied). -/
theorem c7_actionUrl_derived_on_save_not_on_bulk (st : NotifStore)
    (i : NotificationInput) (now : Nat) (r : Nat)
    (hr : i.recipient = some r)
    (hurl : i.actionUrl = none)
    (hvalid : notificationDocValid (buildNotification st.nextId r i now) = true) :
    (∃ d, createNotification st i now
        = ({ st with notifications := st.notifications ++ [d], nextId := st.nextId + 1 }, some d) ∧
      d.actionUrl = some (deriveActionUrl i.ntype i.sender i.data)) ∧
    (∀ recipients docs, (createBulkNotifications st recipients i now).2 = some docs →
      ∀ d ∈ docs, d.actionUrl = i.actionUrl) := by
  have hmemtype : i.ntype ∈ notificationTypes := by
    have h := hvalid
    simp [notificationDocValid, buildNotification] at h
    tauto
  have hbne : (i.ntype != "") = true := by
    have : i.ntype ≠ "" := by
      intro h0
      rw [h0] at hmemtype
      revert hmemtype
      decide
    simp [this]
  constructor
  · refine ⟨⟨st.nextId, r, i.sender, i.ntype, i.title, i.message, i.data,
      some (deriveActionUrl i.ntype i.sender i.data), false, none, i.priority,
      now + 30 * 24 * 60 * 60 * 1000, now⟩, ?_, rfl⟩
    simp only [createNotification, hr]
    rw [if_pos hvalid]
    simp [preSaveActionUrl, buildNotification, hurl, hbne]
  · intro recipients docs hdocs d hd
    simp only [createBulkNotifications] at hdocs
    split at hdocs
    · cases hdocs
      obtain ⟨p, -, rfl⟩ := List.mem_map.mp hd
      rfl
    · cases hdocs

/-- C7 witness: on the save path a `profile_view` notification without a
supplied action URL is stored already carrying the derived
`/alumni/me/profile`. -/
theorem c7_witness_save_path_derives_profile_view :
    ∃ d, createNotification ⟨[], 0⟩
        ⟨some 7, some 2, "profile_view", "t", "m", ⟨none, none, none⟩, none, "medium"⟩ 5
        = ({ notifications := [d], nextId := 1 }, some d) ∧
      d.actionUrl = some "/alumni/me/profile" := by
  obtain ⟨⟨d, hd, hdurl⟩, -⟩ :=
    c7_actionUrl_derived_on_save_not_on_bulk ⟨[], 0⟩
      ⟨some 7, some 2, "profile_view", "t", "m", ⟨none, none, none⟩, none, "medium"⟩
      5 7 rfl rfl (by decide)
  exact ⟨d, by simpa using hd, by rw [hdurl]; rfl⟩

/-- C7 counterexample: the claim says the derivation is applied on every
creation path including bulk creation, but a bulk-created `profile_view`
notification is stored with no action URL although the derivation would
yield `/alumni/me/profile`. -/
theorem c7_counterexample_bulk_stores_underived_url :
    ((createBulkNotifications ⟨[], 0⟩ [1]
        ⟨none, some 2, "profile_view", "t", "m", ⟨none, none, none⟩, none, "medium"⟩
        5).1.notifications.map (fun d => d.actionUrl)) = [none] ∧
    deriveActionUrl "profile_view" (some 2) ⟨none, none, none⟩
      = "/alumni/me/profile" := by
  constructor <;> rfl

/-- C3: on both entry points (HTTP POST route and socket handler), a
successful `sendMessage` to an existing chat C by a participant appends
exactly one new Message document; the chat document with C's id afterwards
has `lastMessage` pointing at that new message and `lastActivity = now`,
which is at least the time observed before the call; and the trace is
persist-then-update-then-broadcast, the broadcast payload carrying the
persisted message's id and creation timestamp. -/
theorem c3_sendMessage_persists_updates_then_broadcasts (st : Store)
    (uid cid : Nat) (content mtype : String) (replyTo : Option Nat)
    (t0 now : Nat) (chat : Chat)
    (hfind : st.chats.find? (fun c => c.id == cid) = some chat)
    (hpart : chat.participants.any (fun p => p.user == uid) = true)
    (hcontent : messageContentValid content = true)
    (hclock : t0 ≤ now) :
    ((postSendMessage st uid cid content mtype replyTo now).status = 201 ∧
     ∃ m payload,
       (postSendMessage st uid cid content mtype replyTo now).store.messages
         = st.messages ++ [m] ∧
       m.chatId = cid ∧ m.sender = uid ∧ m.content = trimString content ∧
       m.createdAt = now ∧
       (∀ c' ∈ (postSendMessage st uid cid content mtype replyTo now).store.chats,
         c'.id = cid →
           c'.lastMessage = some m.id ∧ c'.lastActivity = now ∧ t0 ≤ c'.lastActivity) ∧
       (∃ c' ∈ (postSendMessage st uid cid content mtype replyTo now).store.chats,
         c'.id = cid) ∧
       (postSendMessage st uid cid content mtype replyTo now).events
         = [Event.persistMessage m, Event.updateChat cid (some m.id) now,
            Event.newMessage cid payload] ∧
       payload.id = m.id ∧ payload.timestamp = m.createdAt ∧
       payload.content = m.content) ∧
    (∃ m payload,
       (socketSendMessage st uid cid content mtype now).1.messages
         = st.messages ++ [m] ∧
       m.chatId = cid ∧ m.sender = uid ∧ m.content = trimString content ∧
       m.createdAt = now ∧
       (∀ c' ∈ (socketSendMessage st uid cid content mtype now).1.chats,
         c'.id = cid →
           c'.lastMessage = some m.id ∧ c'.lastActivity = now ∧ t0 ≤ c'.lastActivity) ∧
       (∃ c' ∈ (socketSendMessage st uid cid content mtype now).1.chats,
         c'.id = cid) ∧
       (socketSendMessage st uid cid content mtype now).2
         = [Event.persistMessage m, Event.updateChat cid (some m.id) now,
            Event.newMessage cid payload] ∧
       payload.id = m.id ∧ payload.timestamp = m.createdAt) := by
  have hmem : chat ∈ st.chats := List.mem_of_find?_eq_some hfind
  have hchatid : chat.id = cid := by
    have h := List.find?_some hfind
    simpa using h
  have htrim : ¬ trimString content = "" := by
    simp [messageContentValid] at hcontent
    exact hcontent.1
  have hctrim : (trimString content == "") = false := by simp [htrim]
  refine ⟨⟨?_, ?_⟩, ?_⟩
  · simp [postSendMessage, hctrim, hfind, hpart, hcontent]
  · refine ⟨⟨st.nextId, cid, uid, trimString content, mtype, replyTo, [], false, false,
      none, [], now⟩, ⟨st.nextId, cid, trimString content, mtype, uid, now⟩,
      ?_, rfl, rfl, rfl, rfl, ?_, ?_, ?_, rfl, rfl, rfl⟩
    · simp [postSendMessage, hctrim, hfind, hpart, hcontent, replaceChat]
    · intro c' hc' hcid
      simp only [postSendMessage, hctrim, hfind, hpart, hcontent] at hc'
      simp only [Bool.not_true, Bool.false_eq_true, if_false, replaceChat,
        List.mem_map] at hc'
      obtain ⟨x0, -, rfl⟩ := hc'
      by_cases h0 : x0.id = chat.id
      · simp [h0]
        exact hclock
      · rw [if_neg (by simp [h0])] at hcid ⊢
        exact absurd (hcid.trans hchatid.symm) h0
    · refine ⟨{ chat with lastMessage := some st.nextId, lastActivity := now }, ?_, hchatid⟩
      simp only [postSendMessage, hctrim, hfind, hpart, hcontent]
      simp only [Bool.not_true, Bool.false_eq_true, if_false, replaceChat,
        List.mem_map]
      exact ⟨chat, hmem, by simp⟩
    · simp [postSendMessage, hctrim, hfind, hpart, hcontent]
  · refine ⟨⟨st.nextId, cid, uid, trimString content, mtype, none, [], false, false,
      none, [], now⟩, ⟨st.nextId, cid, content, mtype, uid, now⟩,
      ?_, rfl, rfl, rfl, rfl, ?_, ?_, ?_, rfl, rfl⟩
    · simp [socketSendMessage, hcontent]
    · intro c' hc' hcid
      simp only [socketSendMessage, hcontent] at hc'
      simp only [Bool.not_true, Bool.false_eq_true, if_false, List.mem_map] at hc'
      obtain ⟨x0, -, rfl⟩ := hc'
      by_cases h0 : x0.id = cid
      · simp [h0]
        exact hclock
      · rw [if_neg (by simp [h0])] at hcid ⊢
        exact absurd hcid h0
    · refine ⟨{ chat with lastMessage := some st.nextId, lastActivity := now }, ?_, hchatid⟩
      simp only [socketSendMessage, hcontent]
      simp only [Bool.not_true, Bool.false_eq_true, if_false, List.mem_map]
      exact ⟨chat, hmem, by simp [hchatid]⟩
    · simp [socketSendMessage, hcontent]

/-- C3 witness: user 10 is a participant of chat 1; the HTTP send answers
201 and the socket send persists exactly one message. -/
theorem c3_witness_participant_send_succeeds :
    (postSendMessage
        ⟨[⟨1, "direct", none, none, [⟨10, "member", 0, none⟩], none, 0, false, true, 10⟩], [], 40⟩
        10 1 " hi " "text" none 50).status = 201 ∧
    (socketSendMessage
        ⟨[⟨1, "direct", none, none, [⟨10, "member", 0, none⟩], none, 0, false, true, 10⟩], [], 40⟩
        10 1 " hi " "text" 50).1.messages.length = 1 := by
  have h := c3_sendMessage_persists_updates_then_broadcasts
    ⟨[⟨1, "direct", none, none, [⟨10, "member", 0, none⟩], none, 0, false, true, 10⟩], [], 40⟩
    10 1 " hi " "text" none 20 50
    ⟨1, "direct", none, none, [⟨10, "member", 0, none⟩], none, 0, false, true, 10⟩
    rfl (by decide) (by decide) (by decide)
  refine ⟨h.1.1, ?_⟩
  obtain ⟨m, p, hmsgs, -, -, -, -, -, -, -, -, -⟩ := h.2
  rw [hmsgs]
  rfl

/-- C1: at a concrete failing input — chat 1 has user 10 as its only
participant and user 20 sends to it — the HTTP route behaves as claimed
(403, store untouched, no broadcast), but the socket `send_message` handler
performs no participant check: it persists the non-participant's message,
updates the chat's `lastMessage`, and broadcasts `new_message` to the chat
channel, so the two entry points are not behaviorally identical and the
claimed `ForbiddenError` never occurs on the socket path. -/
theorem c1_socket_send_message_skips_participant_check :
    postSendMessage
        ⟨[⟨1, "direct", none, none, [⟨10, "member", 0, none⟩], none, 0, false, true, 10⟩], [], 100⟩
        20 1 "hi" "text" none 50
      = ⟨⟨[⟨1, "direct", none, none, [⟨10, "member", 0, none⟩], none, 0, false, true, 10⟩], [], 100⟩,
          403, []⟩ ∧
    ((socketSendMessage
        ⟨[⟨1, "direct", none, none, [⟨10, "member", 0, none⟩], none, 0, false, true, 10⟩], [], 100⟩
        20 1 "hi" "text" 50).1.messages.map (fun m => (m.sender, m.content, m.chatId)))
      = [(20, "hi", 1)] ∧
    ((socketSendMessage
        ⟨[⟨1, "direct", none, none, [⟨10, "member", 0, none⟩], none, 0, false, true, 10⟩], [], 100⟩
        20 1 "hi" "text" 50).1.chats.map (fun c => c.lastMessage)) = [some 100] ∧
    (socketSendMessage
        ⟨[⟨1, "direct", none, none, [⟨10, "member", 0, none⟩], none, 0, false, true, 10⟩], [], 100⟩
        20 1 "hi" "text" 50).2
      = [Event.persistMessage ⟨100, 1, 20, "hi", "text", none, [], false, false, none, [], 50⟩,
         Event.updateChat 1 (some 100) 50,
         Event.newMessage 1 ⟨100, 1, "hi", "text", 20, 50⟩] := by
  refine ⟨?_, ?_, ?_, ?_⟩ <;> rfl

end AtuRelay
